import Mathlib

/-!
Verification of the solar-studio visibility-scoring engine.

This file gives a shallow embedding of the scoring core of the repository:
the atmospheric-optics helpers, the ground-to-ground visibility scorer and
the celestial visibility scorer of src/src/utils/visibilityCalculator.ts,
and the Yallop crescent classifier of src/src/utils/weatherService.ts.

Modelling conventions:
* Exact arithmetic: machine floating point is modelled by exact ordered
  fields.  Purely algebraic functions are stated over an arbitrary linear
  ordered field (instantiated at the rationals for executable witnesses);
  functions that use transcendental operations (sqrt, exp, sin, cos,
  arcsin, arccos, arctan) are stated over the reals.
* The SunCalc npm library is an external collaborator, not repository
  code.  Its outputs at the observation instant (moon altitude, moon
  illuminated fraction, sun altitude) are abstracted as the fields of an
  Ephemeris record over which theorems quantify universally; the repo's
  own right-ascension/declination conversion raDecToAltitude is embedded
  from the source.
* JavaScript Date values are modelled by rational epoch-millisecond
  values; an invalid Date (NaN timestamp) is modelled by Option.none.
* Decimal constants of the source are written as the equal rational
  literals, e.g. 0.05 as 5 / 100 and 3.912 as 3912 / 1000.
-/

namespace SolarStudio

/-- Weather conditions consumed by the visibility calculators.  Mirrors
the three fields of the TypeScript WeatherConditions record that the
scoring functions read: cloudCover (fraction), precipitation (mm/h),
fog (fraction).  The derived extinctionCoeff field of the TypeScript
interface is never read by any scoring function and is omitted. -/
structure WeatherConditions (α : Type) where
  cloudCover : α
  precipitation : α
  fog : α

/-- From calculateExtinctionCoefficient in
src/src/utils/visibilityCalculator.ts:
beta = 0.05 + cloudCover * 0.5 + precipitation * 0.1 + fog * 20. -/
def calculateExtinctionCoefficient {α : Type} [LinearOrderedField α]
    (weather : WeatherConditions α) : α :=
  let betaBase : α := 5 / 100
  let betaCloud := weather.cloudCover * (5 / 10)
  let betaPrecipitation := weather.precipitation * (1 / 10)
  let betaFog := weather.fog * 20
  betaBase + betaCloud + betaPrecipitation + betaFog

/-- From calculateKoschmiederVisibility in
src/src/utils/visibilityCalculator.ts: V = 3.912 / beta. -/
def calculateKoschmiederVisibility {α : Type} [LinearOrderedField α]
    (extinctionCoeff : α) : α :=
  3912 / 1000 / extinctionCoeff

/-- From getTimeOfDayFactor in src/src/utils/visibilityCalculator.ts.
The source reads currentTime.getHours(); the local hour (0..23) is the
argument here.  The unused position parameter of the source is dropped. -/
def getTimeOfDayFactor {α : Type} [LinearOrderedField α] (hour : ℕ) : α :=
  if 6 ≤ hour ∧ hour < 20 then 1
  else if (5 ≤ hour ∧ hour < 6) ∨ (20 ≤ hour ∧ hour < 21) then 7 / 10
  else if (4 ≤ hour ∧ hour < 5) ∨ (21 ≤ hour ∧ hour < 22) then 5 / 10
  else 3 / 10

/-- JavaScript Math.round on finite inputs: floor (x + 1/2). -/
def jsRound {α : Type} [LinearOrderedField α] [FloorRing α] (x : α) : ℤ :=
  ⌊x + 1 / 2⌋

/-- From timeFactorToRating in src/src/utils/visibilityCalculator.ts:
Math.round (timeFactor * 9 + 1). -/
def timeFactorToRating {α : Type} [LinearOrderedField α] [FloorRing α]
    (timeFactor : α) : ℤ :=
  jsRound (timeFactor * 9 + 1)

/-- A celestial object as read by the scoring functions: the id and type
strings, the optional equatorial coordinates and the optional apparent
magnitude.  Optional TypeScript fields (possibly undefined or null)
become Option values. -/
structure CelestialObject where
  id : String
  type : String
  ra : Option ℚ
  dec : Option ℚ
  magnitude : Option ℚ

/-- Outputs of the external SunCalc library at the observation instant
and observer coordinates, together with the repository's own
right-ascension/declination altitude conversion specialised to that
instant and observer.  The scorer is a pure function of these values;
theorems quantify over them universally. -/
structure Ephemeris where
  moonAltitudeDeg : ℚ
  moonIllumFraction : ℚ
  sunAltitudeDeg : ℚ
  raDecAltitudeDeg : ℚ → ℚ → ℚ

/-- JavaScript falsiness of the optional ra field, as tested by the
source expression (exclamation mark applied to object?.ra): undefined,
null and the number 0 are falsy.  (NaN, also falsy, has no counterpart
in the exact model.) -/
def isFalsyRa : Option ℚ → Bool
  | none => true
  | some x => x == 0

/-- Step 1 of calculateCelestialVisibilityScore in
src/src/utils/visibilityCalculator.ts (lines 232-262): resolve the pair
(objectAltitudeDeg, brightnessFactor) from the object descriptor.  The
branches mirror the source: Moon by id, or by type with a falsy ra;
Sun by id; objects carrying both ra and dec; fallback to the Moon. -/
def resolveObject (e : Ephemeris) (object : Option CelestialObject) : ℚ × ℚ :=
  let type := (object.map CelestialObject.type).getD "moon"
  let id := (object.map CelestialObject.id).getD "moon"
  if id = "moon" ∨ (type = "moon" ∧ isFalsyRa (object.bind CelestialObject.ra) = true) then
    (e.moonAltitudeDeg, 1 / 10 + 9 / 10 * e.moonIllumFraction)
  else if id = "sun" then
    (e.sunAltitudeDeg, 1)
  else
    match object.bind CelestialObject.ra, object.bind CelestialObject.dec with
    | some ra, some dec =>
      let mag := (object.bind CelestialObject.magnitude).getD 2
      (e.raDecAltitudeDeg ra dec, max (5 / 100) (min 1 ((6 - mag) / 10)))
    | _, _ => (e.moonAltitudeDeg, 1 / 10 + 9 / 10 * e.moonIllumFraction)

/-- Step 6 of calculateCelestialVisibilityScore (lines 283-299): the
time-of-day factor from the sun altitude and the object identity. -/
def celestialTimeFactor (sunAltitudeDeg : ℚ) (id type : String) : ℚ :=
  if id = "sun" then (if sunAltitudeDeg > 0 then 1 else 0)
  else if sunAltitudeDeg < -18 then 1
  else if sunAltitudeDeg < -12 then 9 / 10
  else if sunAltitudeDeg < -6 then 3 / 4
  else if sunAltitudeDeg < 0 then 1 / 2
  else if id = "moon" ∨ type = "moon" then max (1 / 5) (1 / 2 - sunAltitudeDeg / 180)
  else 0

/-- From calculateCelestialVisibilityScore in
src/src/utils/visibilityCalculator.ts (lines 225-314).  The two early
returns of the source become nested conditionals. -/
def calculateCelestialVisibilityScore (e : Ephemeris)
    (weather : WeatherConditions ℚ) (object : Option CelestialObject) : ℚ :=
  let type := (object.map CelestialObject.type).getD "moon"
  let id := (object.map CelestialObject.id).getD "moon"
  let ab := resolveObject e object
  let objectAltitudeDeg := ab.1
  let brightnessFactor := ab.2
  if objectAltitudeDeg < -2 then 0
  else
    let altitudeFactor := min 1 (max 0 (objectAltitudeDeg / 60))
    let horizonRamp := if objectAltitudeDeg < 10 then max 0 ((objectAltitudeDeg + 2) / 12) else 1
    let weatherFactor := max 0 (1 - weather.cloudCover * (9 / 10) - weather.fog * (1 / 2))
    let timeFactor := celestialTimeFactor e.sunAltitudeDeg id type
    if timeFactor ≤ 0 then 0
    else
      let rawScore := 3 / 10 * weatherFactor + 3 / 10 * timeFactor
        + 1 / 4 * altitudeFactor + 3 / 20 * brightnessFactor
      max 0 (min 1 (rawScore * horizonRamp))

/-- Result record of getCelestialVisibilityBreakdown. -/
structure VisibilityBreakdown where
  score : ℚ
  objectAltitude : ℚ
  illumination : Option ℚ
  isAboveHorizon : Bool
  weatherRating : ℤ
  timeRating : ℤ

/-- The altitude/illumination dispatch of getCelestialVisibilityBreakdown
(lines 334-353).  Unlike the scorer's dispatch, the moon-by-type test
reads object?.type directly (with no default), so a missing object only
reaches the moon branch through the defaulted id. -/
def breakdownAltIllum (e : Ephemeris) (object : Option CelestialObject) : ℚ × Option ℚ :=
  let id := (object.map CelestialObject.id).getD "moon"
  if id = "moon" ∨ ((object.map CelestialObject.type) = some "moon"
      ∧ isFalsyRa (object.bind CelestialObject.ra) = true) then
    (e.moonAltitudeDeg, some (e.moonIllumFraction * 100))
  else if id = "sun" then
    (e.sunAltitudeDeg, none)
  else
    match object.bind CelestialObject.ra, object.bind CelestialObject.dec with
    | some _, some _ =>
      (e.raDecAltitudeDeg ((object.bind CelestialObject.ra).getD 0)
        ((object.bind CelestialObject.dec).getD 0), none)
    | _, _ => (e.moonAltitudeDeg, some (e.moonIllumFraction * 100))

/-- From getCelestialVisibilityBreakdown in
src/src/utils/visibilityCalculator.ts (lines 320-380). -/
def getCelestialVisibilityBreakdown (e : Ephemeris)
    (weather : WeatherConditions ℚ) (object : Option CelestialObject) : VisibilityBreakdown :=
  let id := (object.map CelestialObject.id).getD "moon"
  let ai := breakdownAltIllum e object
  let objectAltitudeDeg := ai.1
  let score := calculateCelestialVisibilityScore e weather object
  let weatherRating := jsRound ((1 - weather.cloudCover) * 9 + 1)
  let sunAltitudeDeg := e.sunAltitudeDeg
  let timeRating : ℤ :=
    if id = "sun" then (if sunAltitudeDeg > 0 then 10 else 1)
    else if sunAltitudeDeg < -18 then 10
    else if sunAltitudeDeg < -12 then 9
    else if sunAltitudeDeg < -6 then 7
    else if sunAltitudeDeg < 0 then 5
    else max 2 (jsRound (5 - sunAltitudeDeg / 18))
  { score := score
    objectAltitude := objectAltitudeDeg
    illumination := ai.2
    isAboveHorizon := decide (0 < objectAltitudeDeg)
    weatherRating := weatherRating
    timeRating := timeRating }

/-! The Yallop crescent classifier of src/src/utils/weatherService.ts.
Sunset and moonset are SunCalc outputs; they enter as optional rational
epoch-millisecond values (none models a missing or NaN Date), alwaysUp
as the SunCalc flag, and the function computeQ specialised to the
query's latitude and longitude enters as an oracle on the best time. -/

/-- The six Yallop visibility zones, A best to F worst. -/
inductive Zone
  | A
  | B
  | C
  | D
  | E
  | F
deriving DecidableEq

/-- Alphabetical position of a zone: 0 for A (best) through 5 for F. -/
def zoneIndex : Zone → ℕ
  | .A => 0
  | .B => 1
  | .C => 2
  | .D => 3
  | .E => 4
  | .F => 5

/-- Result record of the Yallop classifier. -/
structure YallopResult where
  q : ℚ
  zone : Zone
  label : String
deriving DecidableEq

/-- From ZONE_THRESHOLDS in src/src/utils/weatherService.ts: descending
minimum-q thresholds 0.216, -0.014, -0.160, -0.232, -0.293. -/
def ZONE_THRESHOLDS : List (Zone × ℚ × String) :=
  [(Zone.A, 27 / 125, "Easily visible"),
   (Zone.B, -7 / 500, "Visible in perfect conditions"),
   (Zone.C, -4 / 25, "May need binoculars"),
   (Zone.D, -29 / 125, "Needs optical aid"),
   (Zone.E, -293 / 1000, "Not visible with telescope")]

/-- The classification loop at the end of computeQ: first zone whose
threshold the q-value strictly exceeds, else zone F with the same q. -/
def classifyQAux (q : ℚ) : List (Zone × ℚ × String) → YallopResult
  | [] => ⟨q, Zone.F, "Not visible"⟩
  | t :: rest => if q > t.2.1 then ⟨q, t.1, t.2.2⟩ else classifyQAux q rest

/-- Zone classification of a q-value over the source threshold table. -/
def classifyQ (q : ℚ) : YallopResult :=
  classifyQAux q ZONE_THRESHOLDS

/-- From ZONE_F in src/src/utils/weatherService.ts: the sentinel result
with q = -1 returned by every degenerate-geometry early exit. -/
def ZONE_F : YallopResult :=
  ⟨-1, Zone.F, "Not visible"⟩

/-- From calculateYallopQ in src/src/utils/weatherService.ts (lines
380-408).  sunset and moonset are the SunCalc rise/set outputs in epoch
milliseconds (none for missing or NaN); alwaysUp is the SunCalc flag;
computeQAt abstracts computeQ lat lon applied to a best time. -/
def calculateYallopQ (sunset moonset : Option ℚ) (alwaysUp : Bool)
    (computeQAt : ℚ → YallopResult) : YallopResult :=
  match sunset with
  | none => ZONE_F
  | some ss =>
    match moonset with
    | none =>
      if alwaysUp then computeQAt (ss + 30 * 60000)
      else ZONE_F
    | some ms =>
      if ms ≤ ss then ZONE_F
      else computeQAt (ss + 4 / 9 * (ms - ss))

/-! Real-valued part of the embedding: the ground-to-ground scorer and
the coordinate conversions, which use square roots, exponentials and
trigonometry. -/

/-- Observer or target position: latitude and longitude in degrees,
altitude in kilometers. -/
structure Position where
  lat : ℝ
  lon : ℝ
  altitude : ℝ

/-- Earth radius constant of src/src/utils/visibilityCalculator.ts. -/
def EARTH_RADIUS_KM : ℝ := 6371

/-- Standard refraction coefficient constant (4 / 3) of
src/src/utils/visibilityCalculator.ts. -/
noncomputable def REFRACTION_COEFFICIENT : ℝ := 4 / 3

/-- JavaScript Math.atan2 on finite inputs, by quadrant.  The signed-zero
distinctions of floating point collapse in the exact model. -/
noncomputable def jsAtan2 (y x : ℝ) : ℝ :=
  if 0 < x then Real.arctan (y / x)
  else if x < 0 ∧ 0 ≤ y then Real.arctan (y / x) + Real.pi
  else if x < 0 then Real.arctan (y / x) - Real.pi
  else if 0 < y then Real.pi / 2
  else if y < 0 then -(Real.pi / 2)
  else 0

/-- JavaScript truncation toward zero of a real quotient. -/
noncomputable def jsTrunc (z : ℝ) : ℤ :=
  if 0 ≤ z then ⌊z⌋ else ⌈z⌉

/-- The JavaScript remainder operator on finite reals: x percent y equals
x minus y times the quotient truncated toward zero. -/
noncomputable def jsMod (x y : ℝ) : ℝ :=
  x - y * jsTrunc (x / y)

/-- From haversineDistance in src/src/utils/visibilityCalculator.ts:
great-circle distance in kilometers between two positions. -/
noncomputable def haversineDistance (pos1 pos2 : Position) : ℝ :=
  let lat1 := pos1.lat * (Real.pi / 180)
  let lat2 := pos2.lat * (Real.pi / 180)
  let deltaLat := (pos2.lat - pos1.lat) * (Real.pi / 180)
  let deltaLon := (pos2.lon - pos1.lon) * (Real.pi / 180)
  let a := Real.sin (deltaLat / 2) * Real.sin (deltaLat / 2)
    + Real.cos lat1 * Real.cos lat2 * Real.sin (deltaLon / 2) * Real.sin (deltaLon / 2)
  let c := 2 * jsAtan2 (Real.sqrt a) (Real.sqrt (1 - a))
  EARTH_RADIUS_KM * c

/-- From calculateHorizonDistance in
src/src/utils/visibilityCalculator.ts: d = 3.57 times the square root of
K times the height in meters. -/
noncomputable def calculateHorizonDistance (altitude : ℝ) : ℝ :=
  let altitudeMeters := altitude * 1000
  357 / 100 * Real.sqrt (REFRACTION_COEFFICIENT * altitudeMeters)

/-- From calculateVisibilityScore in
src/src/utils/visibilityCalculator.ts (lines 142-175): the
ground-to-ground visibility score.  The source reads
currentTime.getHours() through getTimeOfDayFactor; the local hour is the
last argument. -/
noncomputable def calculateVisibilityScore (observerPos targetPos : Position)
    (weather : WeatherConditions ℝ) (hour : ℕ) : ℝ :=
  let distance := haversineDistance observerPos targetPos
  let observerHorizon := calculateHorizonDistance observerPos.altitude
  let targetHorizon := calculateHorizonDistance targetPos.altitude
  let maxLOS := observerHorizon + targetHorizon
  let extinctionCoeff := calculateExtinctionCoefficient weather
  let weatherLimit := calculateKoschmiederVisibility extinctionCoeff
  let effectiveLimit := min maxLOS weatherLimit
  if distance > effectiveLimit then 0
  else
    let contrast := Real.exp (-extinctionCoeff * distance)
    let timeFactor : ℝ := getTimeOfDayFactor hour
    max 0 (min 1 (contrast * timeFactor))

/-- From raDecToAltitude in src/src/utils/visibilityCalculator.ts (lines
194-218): altitude in degrees of an object with the given equatorial
coordinates, for an observer at the given coordinates and epoch
millisecond time.  The sine of the altitude is clamped into the unit
interval before the arcsine. -/
noncomputable def raDecToAltitude (raDeg decDeg observerLat observerLon tMs : ℝ) : ℝ :=
  let DEG := Real.pi / 180
  let JD := tMs / 86400000 + 24405875 / 10
  let T := (JD - 2451545) / 36525
  let GMST0 := 28046061837 / 100000000 + 36098564736629 / 100000000000 * (JD - 2451545)
    + 387933 / 1000000000 * T * T - T * T * T / 38710000
  let GMST := jsMod (jsMod GMST0 360 + 360) 360
  let LST := jsMod (jsMod (GMST + observerLon) 360 + 360) 360
  let HA := (LST - raDeg) * DEG
  let lat := observerLat * DEG
  let dec := decDeg * DEG
  let sinAlt := Real.sin dec * Real.sin lat + Real.cos dec * Real.cos lat * Real.cos HA
  Real.arcsin (max (-1) (min 1 sinAlt)) / DEG

/-- The clamped cosine of ARCL inside computeQ of
src/src/utils/weatherService.ts (lines 429-432): the product of the
cosines of ARCV and DAZ (in radians), clamped into the unit interval
before the arccosine. -/
noncomputable def arclArgument (ARCV DAZ : ℝ) : ℝ :=
  max (-1) (min 1 (Real.cos (ARCV * (Real.pi / 180)) * Real.cos (DAZ * (Real.pi / 180))))

/-- The numeric part of computeQ in src/src/utils/weatherService.ts
(lines 410-443): the Yallop q-value from the SunCalc moon and sun
positions at the best time. -/
noncomputable def computeQValue (moonAltDeg moonAzDeg moonDistKm sunAltDeg sunAzDeg : ℝ) : ℝ :=
  let DEG := 180 / Real.pi
  let RAD := Real.pi / 180
  let ARCV := moonAltDeg - sunAltDeg
  let DAZ := moonAzDeg - sunAzDeg
  let ARCL := Real.arccos (arclArgument ARCV DAZ) * DEG
  let SDprime := Real.arctan (17374 / 10 / moonDistKm) * DEG * 60
  let Wprime := SDprime * (1 - Real.cos (ARCL * RAD))
  (ARCV - (118371 / 10000 - 63226 / 10000 * Wprime + 7319 / 10000 * Wprime * Wprime
    - 1018 / 10000 * Wprime * Wprime * Wprime)) / 10

/-! Helper lemmas shared by the claim theorems. -/

/-- The clamp of a value into the unit interval lies in the unit
interval. -/
lemma clamp01_mem {α : Type} [LinearOrderedField α] (x : α) :
    0 ≤ max 0 (min 1 x) ∧ max 0 (min 1 x) ≤ 1 :=
  ⟨le_max_left _ _, max_le zero_le_one (min_le_left _ _)⟩

/-- Lower bound on the JavaScript rounding. -/
lemma le_jsRound {α : Type} [LinearOrderedField α] [FloorRing α]
    {x : α} {lo : ℤ} (h : (lo : α) ≤ x) : lo ≤ jsRound x := by
  unfold jsRound
  exact Int.le_floor.mpr (by linarith)

/-- Upper bound on the JavaScript rounding. -/
lemma jsRound_le {α : Type} [LinearOrderedField α] [FloorRing α]
    {x : α} {hi : ℤ} (h : x ≤ (hi : α)) : jsRound x ≤ hi := by
  unfold jsRound
  have hlt : ⌊x + 1 / 2⌋ < hi + 1 := Int.floor_lt.mpr (by push_cast; linarith)
  omega

/-- A positive extinction coefficient follows from non-negative weather
fields. -/
lemma extinction_pos {w : WeatherConditions ℚ} (hc : 0 ≤ w.cloudCover)
    (hp : 0 ≤ w.precipitation) (hf : 0 ≤ w.fog) :
    0 < calculateExtinctionCoefficient w := by
  unfold calculateExtinctionCoefficient
  have h1 : 0 ≤ w.cloudCover * (5 / 10) := mul_nonneg hc (by norm_num)
  have h2 : 0 ≤ w.precipitation * (1 / 10) := mul_nonneg hp (by norm_num)
  have h3 : 0 ≤ w.fog * 20 := mul_nonneg hf (by norm_num)
  linarith

/-- Koschmieder visibility strictly decreases in the extinction
coefficient on positive coefficients. -/
lemma koschmieder_lt {b₁ b₂ : ℚ} (h0 : 0 < b₁) (h : b₁ < b₂) :
    calculateKoschmiederVisibility b₂ < calculateKoschmiederVisibility b₁ := by
  unfold calculateKoschmiederVisibility
  exact div_lt_div_of_pos_left (by norm_num) h0 h

/-- The celestial time factor of a non-Sun, non-Moon object vanishes
when the sun is at or above the horizon. -/
lemma celestialTimeFactor_eq_zero {s : ℚ} {id ty : String} (hm : id ≠ "moon")
    (hs : id ≠ "sun") (ht : ty ≠ "moon") (hsun : 0 ≤ s) :
    celestialTimeFactor s id ty = 0 := by
  have h18 : ¬(s < -18) := by linarith
  have h12 : ¬(s < -12) := by linarith
  have h6 : ¬(s < -6) := by linarith
  have h0 : ¬(s < 0) := by linarith
  simp [celestialTimeFactor, hs, h18, h12, h6, h0, hm, ht]

/-! The claim theorems. -/

/-- C3: for every observer and target position, weather, and hour, the
ground-to-ground score is 0 when the haversine distance exceeds the
minimum of the summed horizon distances and the Koschmieder limit
3.912 divided by the extinction coefficient, and otherwise is the clamp
into the unit interval of the contrast exp (-beta * distance) times the
time-of-day factor. -/
theorem surface_visibility_score_formula (observerPos targetPos : Position)
    (weather : WeatherConditions ℝ) (hour : ℕ) :
    calculateVisibilityScore observerPos targetPos weather hour =
      if haversineDistance observerPos targetPos >
          min (calculateHorizonDistance observerPos.altitude
              + calculateHorizonDistance targetPos.altitude)
            (3912 / 1000 / calculateExtinctionCoefficient weather) then 0
      else
        max 0 (min 1 (Real.exp (-(calculateExtinctionCoefficient weather)
          * haversineDistance observerPos targetPos) * getTimeOfDayFactor hour)) :=
  rfl

/-- C7: the composed Koschmieder visibility distance strictly decreases
as exactly one of cloudCover, precipitation, fog strictly increases,
the other two fields held fixed, on non-negative weather fields. -/
theorem koschmieder_strict_decrease (w₁ w₂ : WeatherConditions ℚ)
    (hc : 0 ≤ w₁.cloudCover) (hp : 0 ≤ w₁.precipitation) (hf : 0 ≤ w₁.fog) :
    (w₁.precipitation = w₂.precipitation → w₁.fog = w₂.fog →
      w₁.cloudCover < w₂.cloudCover →
      calculateKoschmiederVisibility (calculateExtinctionCoefficient w₂)
        < calculateKoschmiederVisibility (calculateExtinctionCoefficient w₁)) ∧
    (w₁.cloudCover = w₂.cloudCover → w₁.fog = w₂.fog →
      w₁.precipitation < w₂.precipitation →
      calculateKoschmiederVisibility (calculateExtinctionCoefficient w₂)
        < calculateKoschmiederVisibility (calculateExtinctionCoefficient w₁)) ∧
    (w₁.cloudCover = w₂.cloudCover → w₁.precipitation = w₂.precipitation →
      w₁.fog < w₂.fog →
      calculateKoschmiederVisibility (calculateExtinctionCoefficient w₂)
        < calculateKoschmiederVisibility (calculateExtinctionCoefficient w₁)) := by
  refine ⟨fun h1 h2 h3 => ?_, fun h1 h2 h3 => ?_, fun h1 h2 h3 => ?_⟩ <;>
    refine koschmieder_lt (extinction_pos hc hp hf) ?_ <;>
    · unfold calculateExtinctionCoefficient
      rw [← h1, ← h2]
      have : (0:ℚ) < 5 / 10 ∧ (0:ℚ) < 1 / 10 ∧ (0:ℚ) < 20 := by norm_num
      nlinarith [this.1, this.2.1, this.2.2]

/-- C7 witness: increasing each single field from the clear-sky weather
strictly decreases the composed visibility distance. -/
theorem koschmieder_strict_decrease_witness :
    calculateKoschmiederVisibility (calculateExtinctionCoefficient ⟨1, 0, 0⟩)
      < calculateKoschmiederVisibility (calculateExtinctionCoefficient (⟨0, 0, 0⟩ : WeatherConditions ℚ)) ∧
    calculateKoschmiederVisibility (calculateExtinctionCoefficient ⟨0, 2, 0⟩)
      < calculateKoschmiederVisibility (calculateExtinctionCoefficient (⟨0, 0, 0⟩ : WeatherConditions ℚ)) ∧
    calculateKoschmiederVisibility (calculateExtinctionCoefficient ⟨0, 0, 1⟩)
      < calculateKoschmiederVisibility (calculateExtinctionCoefficient (⟨0, 0, 0⟩ : WeatherConditions ℚ)) :=
  ⟨(koschmieder_strict_decrease ⟨0, 0, 0⟩ ⟨1, 0, 0⟩ (by norm_num) (by norm_num) (by norm_num)).1
      rfl rfl (by norm_num),
   (koschmieder_strict_decrease ⟨0, 0, 0⟩ ⟨0, 2, 0⟩ (by norm_num) (by norm_num) (by norm_num)).2.1
      rfl rfl (by norm_num),
   (koschmieder_strict_decrease ⟨0, 0, 0⟩ ⟨0, 0, 1⟩ (by norm_num) (by norm_num) (by norm_num)).2.2
      rfl rfl (by norm_num)⟩

/-- C8: for all real inputs the altitude returned by raDecToAltitude
lies in [-90, 90] degrees, and the clamped arccosine argument of the
ARCL computation of the Yallop classifier lies in [-1, 1], so neither
inverse-trigonometric call leaves its domain. -/
theorem inverse_trig_clamped (raDeg decDeg observerLat observerLon tMs ARCV DAZ : ℝ) :
    (-90 ≤ raDecToAltitude raDeg decDeg observerLat observerLon tMs ∧
      raDecToAltitude raDeg decDeg observerLat observerLon tMs ≤ 90) ∧
    (-1 ≤ arclArgument ARCV DAZ ∧ arclArgument ARCV DAZ ≤ 1) := by
  constructor
  · have hpos : (0:ℝ) < Real.pi / 180 := by positivity
    unfold raDecToAltitude
    constructor
    · rw [le_div_iff₀ hpos]
      calc (-90 : ℝ) * (Real.pi / 180) = -(Real.pi / 2) := by ring
        _ ≤ Real.arcsin _ := Real.neg_pi_div_two_le_arcsin _
    · rw [div_le_iff₀ hpos]
      calc Real.arcsin _ ≤ Real.pi / 2 := Real.arcsin_le_pi_div_two _
        _ = 90 * (Real.pi / 180) := by ring
  · exact ⟨le_max_left _ _, max_le (by norm_num) (min_le_left _ _)⟩

/-- C5: the Yallop classifier is total, returning zone F when there is
no sunset, when moonset is missing and the Moon is not always up, and
when moonset is at or before sunset; otherwise it evaluates q at the
best time sunset plus four ninths of the lag, or at sunset plus thirty
minutes when the Moon is always up. -/
theorem yallop_control_flow (computeQAt : ℚ → YallopResult) (alwaysUp : Bool) :
    (∀ moonset : Option ℚ, calculateYallopQ none moonset alwaysUp computeQAt = ZONE_F) ∧
    (∀ ss : ℚ, calculateYallopQ (some ss) none false computeQAt = ZONE_F) ∧
    (∀ ss : ℚ, calculateYallopQ (some ss) none true computeQAt
      = computeQAt (ss + 30 * 60000)) ∧
    (∀ ss ms : ℚ, ms ≤ ss →
      calculateYallopQ (some ss) (some ms) alwaysUp computeQAt = ZONE_F) ∧
    (∀ ss ms : ℚ, ss < ms →
      calculateYallopQ (some ss) (some ms) alwaysUp computeQAt
        = computeQAt (ss + 4 / 9 * (ms - ss))) := by
  refine ⟨fun _ => rfl, fun _ => rfl, fun _ => rfl, fun ss ms h => ?_, fun ss ms h => ?_⟩
  · simp [calculateYallopQ, if_pos h]
  · simp [calculateYallopQ, if_neg (not_le.mpr h)]

/-- C5 witness: concrete instances of every branch of the control
flow, with the oracle recording the best time it receives. -/
theorem yallop_control_flow_witness :
    calculateYallopQ none (some 5) false (fun t => ⟨t, Zone.A, "probe"⟩) = ZONE_F ∧
    calculateYallopQ (some 0) none false (fun t => ⟨t, Zone.A, "probe"⟩) = ZONE_F ∧
    calculateYallopQ (some 0) none true (fun t => ⟨t, Zone.A, "probe"⟩)
      = (fun t => (⟨t, Zone.A, "probe"⟩ : YallopResult)) (0 + 30 * 60000) ∧
    calculateYallopQ (some 3) (some 2) false (fun t => ⟨t, Zone.A, "probe"⟩) = ZONE_F ∧
    calculateYallopQ (some 0) (some 9) false (fun t => ⟨t, Zone.A, "probe"⟩)
      = (fun t => (⟨t, Zone.A, "probe"⟩ : YallopResult)) (0 + 4 / 9 * (9 - 0)) :=
  ⟨(yallop_control_flow _ false).1 (some 5),
   (yallop_control_flow _ false).2.1 0,
   (yallop_control_flow _ true).2.2.1 0,
   (yallop_control_flow _ false).2.2.2.1 3 2 (by norm_num),
   (yallop_control_flow _ false).2.2.2.2 0 9 (by norm_num)⟩

/-- C10: every degenerate-geometry early exit of the Yallop classifier
returns the sentinel result with q exactly -1, zone F, and the label
Not visible, for every oracle and geometry. -/
theorem yallop_zone_f_sentinel (computeQAt : ℚ → YallopResult) (alwaysUp : Bool)
    (moonset : Option ℚ) (ss ms : ℚ) (h : ms ≤ ss) :
    ((calculateYallopQ none moonset alwaysUp computeQAt).q = -1 ∧
      (calculateYallopQ none moonset alwaysUp computeQAt).zone = Zone.F ∧
      (calculateYallopQ none moonset alwaysUp computeQAt).label = "Not visible") ∧
    ((calculateYallopQ (some ss) none false computeQAt).q = -1 ∧
      (calculateYallopQ (some ss) none false computeQAt).zone = Zone.F ∧
      (calculateYallopQ (some ss) none false computeQAt).label = "Not visible") ∧
    ((calculateYallopQ (some ss) (some ms) alwaysUp computeQAt).q = -1 ∧
      (calculateYallopQ (some ss) (some ms) alwaysUp computeQAt).zone = Zone.F ∧
      (calculateYallopQ (some ss) (some ms) alwaysUp computeQAt).label = "Not visible") := by
  have h3 : calculateYallopQ (some ss) (some ms) alwaysUp computeQAt = ZONE_F := by
    simp [calculateYallopQ, if_pos h]
  refine ⟨⟨rfl, rfl, rfl⟩, ⟨rfl, rfl, rfl⟩, ?_⟩
  rw [h3]
  exact ⟨rfl, rfl, rfl⟩

/-- C10 witness: the sentinel fields at concrete degenerate inputs. -/
theorem yallop_zone_f_sentinel_witness :
    ((calculateYallopQ none (some 7) true (fun t => ⟨t, Zone.B, "probe"⟩)).q = -1 ∧
      (calculateYallopQ none (some 7) true (fun t => ⟨t, Zone.B, "probe"⟩)).zone = Zone.F ∧
      (calculateYallopQ none (some 7) true (fun t => ⟨t, Zone.B, "probe"⟩)).label = "Not visible") ∧
    ((calculateYallopQ (some 4) none false (fun t => ⟨t, Zone.B, "probe"⟩)).q = -1 ∧
      (calculateYallopQ (some 4) none false (fun t => ⟨t, Zone.B, "probe"⟩)).zone = Zone.F ∧
      (calculateYallopQ (some 4) none false (fun t => ⟨t, Zone.B, "probe"⟩)).label = "Not visible") ∧
    ((calculateYallopQ (some 4) (some 4) true (fun t => ⟨t, Zone.B, "probe"⟩)).q = -1 ∧
      (calculateYallopQ (some 4) (some 4) true (fun t => ⟨t, Zone.B, "probe"⟩)).zone = Zone.F ∧
      (calculateYallopQ (some 4) (some 4) true (fun t => ⟨t, Zone.B, "probe"⟩)).label = "Not visible") :=
  yallop_zone_f_sentinel (fun t => ⟨t, Zone.B, "probe"⟩) true (some 7) 4 4 le_rfl

/-- C6: the zone classification is antitone in the q-value: a strictly
larger q is assigned an equal or alphabetically earlier zone. -/
theorem yallop_zone_antitone (q₁ q₂ : ℚ) (h : q₂ < q₁) :
    zoneIndex (classifyQ q₁).zone ≤ zoneIndex (classifyQ q₂).zone := by
  simp only [classifyQ, ZONE_THRESHOLDS, classifyQAux]
  split_ifs <;> simp [zoneIndex] <;> linarith

/-- C6 witness: a larger q at concrete values gets an equal or better
zone. -/
theorem yallop_zone_antitone_witness :
    zoneIndex (classifyQ 1).zone ≤ zoneIndex (classifyQ 0).zone :=
  yallop_zone_antitone 1 0 (by norm_num)

/-- C1: the celestial scorer returns exactly 0 whenever the resolved
object altitude is below -2 degrees, and exactly 0 for every object
that is neither the Sun nor the Moon by id or type whenever the sun
altitude is at or above 0 degrees. -/
theorem celestial_score_hard_gates (e : Ephemeris) (w : WeatherConditions ℚ)
    (object : Option CelestialObject) :
    ((resolveObject e object).1 < -2 →
      calculateCelestialVisibilityScore e w object = 0) ∧
    (∀ o : CelestialObject, object = some o → o.id ≠ "moon" → o.id ≠ "sun" →
      o.type ≠ "moon" → 0 ≤ e.sunAltitudeDeg →
      calculateCelestialVisibilityScore e w object = 0) := by
  constructor
  · intro halt
    simp only [calculateCelestialVisibilityScore]
    rw [if_pos halt]
  · rintro o rfl hm hs ht hsun
    simp only [calculateCelestialVisibilityScore, Option.map_some', Option.getD_some]
    by_cases halt : (resolveObject e (some o)).1 < -2
    · rw [if_pos halt]
    · rw [if_neg halt,
        celestialTimeFactor_eq_zero hm hs ht hsun, if_pos le_rfl]

/-- C1 witness: the gates at a Moon ten degrees below the horizon and
at a planet during daytime. -/
theorem celestial_score_hard_gates_witness :
    calculateCelestialVisibilityScore ⟨-10, 0, -19, fun _ _ => 0⟩ ⟨0, 0, 0⟩ none = 0 ∧
    calculateCelestialVisibilityScore ⟨45, 0, 5, fun _ _ => 0⟩ ⟨0, 0, 0⟩
      (some ⟨"mars", "planet", some 30, some 10, some 2⟩) = 0 :=
  ⟨(celestial_score_hard_gates ⟨-10, 0, -19, fun _ _ => 0⟩ ⟨0, 0, 0⟩ none).1
      (by simp [resolveObject]; norm_num),
   (celestial_score_hard_gates ⟨45, 0, 5, fun _ _ => 0⟩ ⟨0, 0, 0⟩
        (some ⟨"mars", "planet", some 30, some 10, some 2⟩)).2
      ⟨"mars", "planet", some 30, some 10, some 2⟩ rfl
      (by decide) (by decide) (by decide) (by norm_num)⟩

/-- C2 counterexample: for the Moon at 45 degrees altitude with
illuminated fraction one half, clear sky, during astronomical night,
the celestial score is exactly 0.87, which is not within 0.02 of the
claimed value 0.82. -/
theorem celestial_moon_scenario_not_082 :
    calculateCelestialVisibilityScore ⟨45, 1 / 2, -19, fun _ _ => 0⟩ ⟨0, 0, 0⟩ none
      = 87 / 100 ∧
    ¬(|calculateCelestialVisibilityScore ⟨45, 1 / 2, -19, fun _ _ => 0⟩ ⟨0, 0, 0⟩ none
        - 82 / 100| ≤ 1 / 50) := by
  have hval : calculateCelestialVisibilityScore ⟨45, 1 / 2, -19, fun _ _ => 0⟩
      ⟨0, 0, 0⟩ none = 87 / 100 := by
    simp [calculateCelestialVisibilityScore, resolveObject, celestialTimeFactor, isFalsyRa]
    norm_num
  refine ⟨hval, ?_⟩
  rw [hval, abs_le]
  push_neg
  intro hcontra
  norm_num

/-- C2 amended: in the same scenario the score equals exactly 0.87, the
weighted combination 0.30 * 1 + 0.30 * 1 + 0.25 * (45/60)
+ 0.15 * (0.1 + 0.9 * 0.5). -/
theorem celestial_moon_scenario_score (e : Ephemeris) (w : WeatherConditions ℚ)
    (hAlt : e.moonAltitudeDeg = 45) (hFrac : e.moonIllumFraction = 1 / 2)
    (hSun : e.sunAltitudeDeg < -18) (hc : w.cloudCover = 0) (hf : w.fog = 0) :
    calculateCelestialVisibilityScore e w none = 87 / 100 ∧
    (87 : ℚ) / 100 = 3 / 10 * 1 + 3 / 10 * 1 + 1 / 4 * (45 / 60)
      + 3 / 20 * (1 / 10 + 9 / 10 * (1 / 2)) := by
  constructor
  · simp [calculateCelestialVisibilityScore, resolveObject, celestialTimeFactor,
      isFalsyRa, hAlt, hFrac, hSun, hc, hf]
    norm_num
  · norm_num

/-- C2 amended witness: the scenario at a concrete ephemeris. -/
theorem celestial_moon_scenario_score_witness :
    calculateCelestialVisibilityScore ⟨45, 1 / 2, -19, fun _ _ => 0⟩ ⟨0, 5, 0⟩ none
      = 87 / 100 ∧
    (87 : ℚ) / 100 = 3 / 10 * 1 + 3 / 10 * 1 + 1 / 4 * (45 / 60)
      + 3 / 20 * (1 / 10 + 9 / 10 * (1 / 2)) :=
  celestial_moon_scenario_score ⟨45, 1 / 2, -19, fun _ _ => 0⟩ ⟨0, 5, 0⟩
    rfl rfl (by norm_num) rfl rfl

/-- C9: an object whose type is moon and whose ra is absent or exactly
0 resolves to the Moon even when its id is not moon, because the
dispatch tests JavaScript falsiness of ra: the resolved altitude and
brightness are the Moon's, the breakdown reports the Moon's altitude
and illumination, and (unless the id is sun) the full score equals the
default Moon score. -/
theorem moon_type_falsy_ra_dispatch (e : Ephemeris) (w : WeatherConditions ℚ)
    (o : CelestialObject) (_hid : o.id ≠ "moon") (hty : o.type = "moon")
    (hra : o.ra = none ∨ o.ra = some 0) :
    resolveObject e (some o) = (e.moonAltitudeDeg, 1 / 10 + 9 / 10 * e.moonIllumFraction) ∧
    (getCelestialVisibilityBreakdown e w (some o)).objectAltitude = e.moonAltitudeDeg ∧
    (getCelestialVisibilityBreakdown e w (some o)).illumination
      = some (e.moonIllumFraction * 100) ∧
    (o.id ≠ "sun" → calculateCelestialVisibilityScore e w (some o)
      = calculateCelestialVisibilityScore e w none) := by
  have hfalsy : isFalsyRa o.ra = true := by
    rcases hra with h | h <;> simp [isFalsyRa, h]
  refine ⟨?_, ?_, ?_, ?_⟩
  · simp [resolveObject, hty, hfalsy]
  · simp [getCelestialVisibilityBreakdown, breakdownAltIllum, hty, hfalsy]
  · simp [getCelestialVisibilityBreakdown, breakdownAltIllum, hty, hfalsy]
  · intro hs
    simp [calculateCelestialVisibilityScore, resolveObject, celestialTimeFactor,
      hty, hfalsy, hs]

/-- C9 witness: a distant moon with id phobos, type moon and ra exactly
0 is scored as Earth's Moon. -/
theorem moon_type_falsy_ra_dispatch_witness :
    resolveObject ⟨37, 1 / 4, -20, fun _ _ => 0⟩
        (some ⟨"phobos", "moon", some 0, some 15, some 11⟩)
      = (37, 1 / 10 + 9 / 10 * (1 / 4)) ∧
    (getCelestialVisibilityBreakdown ⟨37, 1 / 4, -20, fun _ _ => 0⟩ ⟨0, 0, 0⟩
        (some ⟨"phobos", "moon", some 0, some 15, some 11⟩)).objectAltitude = 37 ∧
    (getCelestialVisibilityBreakdown ⟨37, 1 / 4, -20, fun _ _ => 0⟩ ⟨0, 0, 0⟩
        (some ⟨"phobos", "moon", some 0, some 15, some 11⟩)).illumination
      = some (1 / 4 * 100) ∧
    ("phobos" ≠ "sun" →
      calculateCelestialVisibilityScore ⟨37, 1 / 4, -20, fun _ _ => 0⟩ ⟨0, 0, 0⟩
          (some ⟨"phobos", "moon", some 0, some 15, some 11⟩)
        = calculateCelestialVisibilityScore ⟨37, 1 / 4, -20, fun _ _ => 0⟩ ⟨0, 0, 0⟩ none) :=
  moon_type_falsy_ra_dispatch ⟨37, 1 / 4, -20, fun _ _ => 0⟩ ⟨0, 0, 0⟩
    ⟨"phobos", "moon", some 0, some 15, some 11⟩ (by decide) rfl (Or.inr rfl)

/-- C4: every score returned by the ground scorer, the celestial scorer
and the breakdown lies in the unit interval, and for cloud cover in
the unit interval and time factor in the unit interval, the weather
and time ratings of the breakdown and the rating of timeFactorToRating
are integers in [1, 10]. -/
theorem score_and_rating_bounds (observerPos targetPos : Position)
    (wR : WeatherConditions ℝ) (hour : ℕ) (e : Ephemeris)
    (w : WeatherConditions ℚ) (object : Option CelestialObject) (tf : ℚ)
    (hc0 : 0 ≤ w.cloudCover) (hc1 : w.cloudCover ≤ 1)
    (htf0 : 0 ≤ tf) (htf1 : tf ≤ 1) :
    (0 ≤ calculateVisibilityScore observerPos targetPos wR hour ∧
      calculateVisibilityScore observerPos targetPos wR hour ≤ 1) ∧
    (0 ≤ calculateCelestialVisibilityScore e w object ∧
      calculateCelestialVisibilityScore e w object ≤ 1) ∧
    (0 ≤ (getCelestialVisibilityBreakdown e w object).score ∧
      (getCelestialVisibilityBreakdown e w object).score ≤ 1) ∧
    (1 ≤ (getCelestialVisibilityBreakdown e w object).weatherRating ∧
      (getCelestialVisibilityBreakdown e w object).weatherRating ≤ 10) ∧
    (1 ≤ (getCelestialVisibilityBreakdown e w object).timeRating ∧
      (getCelestialVisibilityBreakdown e w object).timeRating ≤ 10) ∧
    (1 ≤ timeFactorToRating tf ∧ timeFactorToRating tf ≤ 10) := by
  have hcel : 0 ≤ calculateCelestialVisibilityScore e w object ∧
      calculateCelestialVisibilityScore e w object ≤ 1 := by
    simp only [calculateCelestialVisibilityScore]
    split_ifs <;> first
      | exact clamp01_mem _
      | norm_num
  refine ⟨?_, hcel, hcel, ?_, ?_, ?_⟩
  · simp only [calculateVisibilityScore]
    split_ifs
    · norm_num
    · exact clamp01_mem _
  · constructor
    · exact le_jsRound (by push_cast; nlinarith)
    · exact jsRound_le (by push_cast; nlinarith)
  · simp only [getCelestialVisibilityBreakdown]
    split_ifs with h1 h2 h3 h4 h5 h6
    · norm_num
    · norm_num
    · norm_num
    · norm_num
    · norm_num
    · norm_num
    · have hsun : (0 : ℚ) ≤ e.sunAltitudeDeg := not_lt.mp h6
      constructor
      · calc (1 : ℤ) ≤ 2 := by norm_num
          _ ≤ max 2 (jsRound (5 - e.sunAltitudeDeg / 18)) := le_max_left _ _
      · refine max_le (by norm_num) (jsRound_le ?_)
        push_cast
        have : 0 ≤ e.sunAltitudeDeg / 18 := by positivity
        linarith
  · exact ⟨le_jsRound (by push_cast; linarith),
      jsRound_le (by push_cast; linarith)⟩

/-- C4 witness: the bounds at concrete clear-sky inputs. -/
theorem score_and_rating_bounds_witness :
    (0 ≤ calculateVisibilityScore ⟨0, 0, 0⟩ ⟨0, 1, 0⟩ ⟨0, 0, 0⟩ 12 ∧
      calculateVisibilityScore ⟨0, 0, 0⟩ ⟨0, 1, 0⟩ ⟨0, 0, 0⟩ 12 ≤ 1) ∧
    (0 ≤ calculateCelestialVisibilityScore ⟨45, 0, 0, fun _ _ => 0⟩ ⟨0, 0, 0⟩ none ∧
      calculateCelestialVisibilityScore ⟨45, 0, 0, fun _ _ => 0⟩ ⟨0, 0, 0⟩ none ≤ 1) ∧
    (0 ≤ (getCelestialVisibilityBreakdown ⟨45, 0, 0, fun _ _ => 0⟩ ⟨0, 0, 0⟩ none).score ∧
      (getCelestialVisibilityBreakdown ⟨45, 0, 0, fun _ _ => 0⟩ ⟨0, 0, 0⟩ none).score ≤ 1) ∧
    (1 ≤ (getCelestialVisibilityBreakdown ⟨45, 0, 0, fun _ _ => 0⟩ ⟨0, 0, 0⟩ none).weatherRating ∧
      (getCelestialVisibilityBreakdown ⟨45, 0, 0, fun _ _ => 0⟩ ⟨0, 0, 0⟩ none).weatherRating ≤ 10) ∧
    (1 ≤ (getCelestialVisibilityBreakdown ⟨45, 0, 0, fun _ _ => 0⟩ ⟨0, 0, 0⟩ none).timeRating ∧
      (getCelestialVisibilityBreakdown ⟨45, 0, 0, fun _ _ => 0⟩ ⟨0, 0, 0⟩ none).timeRating ≤ 10) ∧
    (1 ≤ timeFactorToRating (1 : ℚ) ∧ timeFactorToRating (1 : ℚ) ≤ 10) :=
  score_and_rating_bounds ⟨0, 0, 0⟩ ⟨0, 1, 0⟩ ⟨0, 0, 0⟩ 12 ⟨45, 0, 0, fun _ _ => 0⟩
    ⟨0, 0, 0⟩ none 1 (by decide) (by decide) (by decide) (by decide)

end SolarStudio
